import Mathlib

/-!
Verification of the Super Trunfo city-comparison core (src/super_trunfo.c).

Shallow embedding conventions:
- C `double` is modelled as `ℚ` (exact arithmetic), `unsigned long` as `ℕ`,
  `int` as `ℤ`.
- Attribute identifiers are modelled as `ℤ`, matching the C `int` carrying
  `enum Atributo` values; the six enumeration members are the constants 1..6.
- The `scanf`-based re-prompt loops are modelled as functions over the list of
  parse attempts, where `none` is a failed parse and `some v` a token that
  parsed to `v`; a loop that never obtains a value (exhausted list) yields
  `none` for the whole read.
-/

namespace SuperTrunfo

/-- The struct FichaCidade of the source: raw captured fields plus the two
derived fields written by calcular_metricas. -/
structure FichaCidade where
  estado : Char
  codigo : String
  cidade : String
  populacao : ℕ
  area_km2 : ℚ
  pib_bilhoes : ℚ
  pontos_turisticos : ℤ
  densidade : ℚ
  pib_per_capita : ℚ
  deriving DecidableEq, Repr

/-- enum Atributo: ATR_POPULACAO = 1. -/
abbrev ATR_POPULACAO : ℤ := 1

/-- enum Atributo: ATR_AREA = 2. -/
abbrev ATR_AREA : ℤ := 2

/-- enum Atributo: ATR_PIB = 3. -/
abbrev ATR_PIB : ℤ := 3

/-- enum Atributo: ATR_TURISMO = 4. -/
abbrev ATR_TURISMO : ℤ := 4

/-- enum Atributo: ATR_DENSIDADE = 5. -/
abbrev ATR_DENSIDADE : ℤ := 5

/-- enum Atributo: ATR_PIB_PC = 6. -/
abbrev ATR_PIB_PC : ℤ := 6

/-- nome_atributo: the switch over the attribute identifier returning the
display name, with default case "Desconhecido". -/
def nome_atributo (atr : ℤ) : String :=
  if atr = ATR_POPULACAO then "População"
  else if atr = ATR_AREA then "Área"
  else if atr = ATR_PIB then "PIB"
  else if atr = ATR_TURISMO then "Pontos Turísticos"
  else if atr = ATR_DENSIDADE then "Densidade Demográfica"
  else if atr = ATR_PIB_PC then "PIB per Capita"
  else "Desconhecido"

/-- calcular_metricas: fills the two derived fields from the raw fields.
densidade = populacao / area_km2 when area_km2 > 0, else 0;
pib_per_capita = (pib_bilhoes * 1e9) / populacao when populacao > 0, else 0. -/
def calcular_metricas (f : FichaCidade) : FichaCidade :=
  { f with
    densidade := if f.area_km2 > 0 then (f.populacao : ℚ) / f.area_km2 else 0,
    pib_per_capita :=
      if f.populacao > 0 then (f.pib_bilhoes * 1000000000) / (f.populacao : ℚ)
      else 0 }

/-- ler_ulong: the re-prompt loop over parse attempts; returns the first
successfully parsed value. -/
def ler_ulong : List (Option ℕ) → Option ℕ
  | [] => none
  | none :: resto => ler_ulong resto
  | some v :: _ => some v

/-- ler_double: the re-prompt loop over parse attempts; returns the first
successfully parsed value (no sign check). -/
def ler_double : List (Option ℚ) → Option ℚ
  | [] => none
  | none :: resto => ler_double resto
  | some v :: _ => some v

/-- ler_int: the re-prompt loop over parse attempts; returns the first
successfully parsed value (no sign check). -/
def ler_int : List (Option ℤ) → Option ℤ
  | [] => none
  | none :: resto => ler_int resto
  | some v :: _ => some v

/-- ler_ficha: reads the raw fields of one card (the char/string reads are
passed through as already-captured values, the numeric reads as parse-attempt
streams) and finishes by calling calcular_metricas. Yields none when a
numeric re-prompt loop never obtains a value. -/
def ler_ficha (estado : Char) (codigo cidade : String)
    (pops : List (Option ℕ)) (areas pibs : List (Option ℚ))
    (pontos : List (Option ℤ)) : Option FichaCidade :=
  match ler_ulong pops, ler_double areas, ler_double pibs, ler_int pontos with
  | some p, some a, some g, some t =>
      some (calcular_metricas
        { estado := estado, codigo := codigo, cidade := cidade,
          populacao := p, area_km2 := a, pib_bilhoes := g,
          pontos_turisticos := t, densidade := 0, pib_per_capita := 0 })
  | _, _, _, _ => none

/-- valor_atributo_base: the switch resolving an attribute identifier to the
numeric value of the profile, default case 0.0. -/
def valor_atributo_base (f : FichaCidade) (atr : ℤ) : ℚ :=
  if atr = ATR_POPULACAO then (f.populacao : ℚ)
  else if atr = ATR_AREA then f.area_km2
  else if atr = ATR_PIB then f.pib_bilhoes
  else if atr = ATR_TURISMO then (f.pontos_turisticos : ℚ)
  else if atr = ATR_DENSIDADE then f.densidade
  else if atr = ATR_PIB_PC then f.pib_per_capita
  else 0

/-- pontuar_atributo: for ATR_DENSIDADE the score is 1/v when v > 0 else 0;
for every other identifier it is the base value itself. -/
def pontuar_atributo (f : FichaCidade) (atr : ℤ) : ℚ :=
  let v := valor_atributo_base f atr
  if atr = ATR_DENSIDADE then (if v > 0 then 1 / v else 0) else v

/-- ler_atributo_distinto: the selection loop, over the sequence of integers
ler_int delivers; skips values outside 1..6 and the previously chosen value,
returns the first acceptable one (none when the sequence is exhausted). -/
def ler_atributo_distinto : List ℤ → ℤ → Option ℤ
  | [], _ => none
  | a :: resto, diferente_de =>
      if a < 1 ∨ a > 6 then ler_atributo_distinto resto diferente_de
      else if a = diferente_de then ler_atributo_distinto resto diferente_de
      else some a

/-- Outcome of a match as printed by main: card 1 wins, card 2 wins, or tie. -/
inductive Vencedor where
  | carta1 : Vencedor
  | carta2 : Vencedor
  | empate : Vencedor
  deriving DecidableEq, Repr

/-- The comparison data main computes and prints: the four base values, the
two aggregate scores, and the winner. -/
structure ResultadoComparacao where
  c1_v1_base : ℚ
  c2_v1_base : ℚ
  c1_v2_base : ℚ
  c2_v2_base : ℚ
  c1_score : ℚ
  c2_score : ℚ
  vencedor : Vencedor
  deriving DecidableEq, Repr

/-- comparar: the evaluation section of main (lines 217-241): base values,
aggregate scores as plain sums, and the winner by strict comparison of the
aggregate scores with tie as the fallthrough. -/
def comparar (c1 c2 : FichaCidade) (atr1 atr2 : ℤ) : ResultadoComparacao :=
  let c1_score := pontuar_atributo c1 atr1 + pontuar_atributo c1 atr2
  let c2_score := pontuar_atributo c2 atr1 + pontuar_atributo c2 atr2
  { c1_v1_base := valor_atributo_base c1 atr1,
    c2_v1_base := valor_atributo_base c2 atr1,
    c1_v2_base := valor_atributo_base c1 atr2,
    c2_v2_base := valor_atributo_base c2 atr2,
    c1_score := c1_score,
    c2_score := c2_score,
    vencedor :=
      if c1_score > c2_score then Vencedor.carta1
      else if c2_score > c1_score then Vencedor.carta2
      else Vencedor.empate }

/-- Swaps the two win outcomes and keeps the tie, for the symmetry claim. -/
def trocar_vencedor : Vencedor → Vencedor
  | Vencedor.carta1 => Vencedor.carta2
  | Vencedor.carta2 => Vencedor.carta1
  | Vencedor.empate => Vencedor.empate

/-- A concrete profile with positive area and population. -/
def ficha_exemplo : FichaCidade :=
  ⟨'A', "A01", "Cidade X", 1000000, 500, 10, 12, 0, 0⟩

/-- A concrete profile with zero area and zero population. -/
def ficha_zero : FichaCidade :=
  ⟨'B', "B02", "Cidade Y", 0, 0, 3, 1, 0, 0⟩

/-- A concrete profile whose densidade field is the positive value 4. -/
def ficha_dens : FichaCidade :=
  ⟨'C', "C03", "Cidade Z", 8, 2, 1, 0, 4, 125000000⟩

/-- Parse attempts for the populacao field in the negative-area scenario. -/
def entradas_pop_c9 : List (Option ℕ) := [some 10]

/-- Parse attempts for the area field in the negative-area scenario. -/
def entradas_area_c9 : List (Option ℚ) := [some (-5)]

/-- Parse attempts for the pib field in the negative-area scenario. -/
def entradas_pib_c9 : List (Option ℚ) := [some 1]

/-- Parse attempts for the pontos field in the negative-area scenario. -/
def entradas_pontos_c9 : List (Option ℤ) := [some 1]

/-- The profile ler_ficha builds from the negative-area inputs above. -/
def ficha_area_negativa : FichaCidade :=
  ⟨'A', "A01", "Cidade X", 10, -5, 1, 1, 0, 100000000⟩

/-- Claim C1: for every profile, calcular_metricas sets densidade to
populacao / area when area > 0 and to 0 when area = 0, and pib_per_capita to
(pib_bilhoes * 10^9) / populacao when populacao > 0 and to 0 when
populacao = 0; the zero cases are ordinary results, not errors. -/
theorem calcular_metricas_especificacao (f : FichaCidade) :
    (0 < f.area_km2 →
      (calcular_metricas f).densidade = (f.populacao : ℚ) / f.area_km2) ∧
    (f.area_km2 = 0 → (calcular_metricas f).densidade = 0) ∧
    (0 < f.populacao →
      (calcular_metricas f).pib_per_capita
        = f.pib_bilhoes * 1000000000 / (f.populacao : ℚ)) ∧
    (f.populacao = 0 → (calcular_metricas f).pib_per_capita = 0) := by
  refine ⟨fun h => ?_, fun h => ?_, fun h => ?_, fun h => ?_⟩ <;>
    simp [calcular_metricas, h]

/-- Concrete instance of the C1 theorem: a profile with area 500 and
population 1000000, and a profile with area 0 and population 0. -/
theorem calcular_metricas_especificacao_witness :
    (calcular_metricas ficha_exemplo).densidade
      = (ficha_exemplo.populacao : ℚ) / ficha_exemplo.area_km2 ∧
    (calcular_metricas ficha_zero).densidade = 0 ∧
    (calcular_metricas ficha_exemplo).pib_per_capita
      = ficha_exemplo.pib_bilhoes * 1000000000 / (ficha_exemplo.populacao : ℚ) ∧
    (calcular_metricas ficha_zero).pib_per_capita = 0 :=
  ⟨(calcular_metricas_especificacao ficha_exemplo).1 (by norm_num [ficha_exemplo]),
   (calcular_metricas_especificacao ficha_zero).2.1 rfl,
   (calcular_metricas_especificacao ficha_exemplo).2.2.1 (by norm_num [ficha_exemplo]),
   (calcular_metricas_especificacao ficha_zero).2.2.2 rfl⟩

/-- Claim C2: for every profile and every identifier of the six-member
enumeration, the score is 1/densidade for ATR_DENSIDADE when densidade > 0,
is 0 for ATR_DENSIDADE when densidade = 0, and is the base value for every
other attribute. -/
theorem pontuar_atributo_especificacao (f : FichaCidade) (atr : ℤ)
    (h1 : 1 ≤ atr) (h2 : atr ≤ 6) :
    (atr = ATR_DENSIDADE → 0 < f.densidade →
      pontuar_atributo f atr = 1 / f.densidade) ∧
    (atr = ATR_DENSIDADE → f.densidade = 0 → pontuar_atributo f atr = 0) ∧
    (atr ≠ ATR_DENSIDADE →
      pontuar_atributo f atr = valor_atributo_base f atr) := by
  refine ⟨fun ha hd => ?_, fun ha hd => ?_, fun ha => ?_⟩
  · subst ha; simp [pontuar_atributo, valor_atributo_base, hd]
  · subst ha; simp [pontuar_atributo, valor_atributo_base, hd]
  · simp [pontuar_atributo, ha]

/-- Concrete instance of the C2 theorem: a profile with densidade 4 scored
on ATR_DENSIDADE, a profile with densidade 0 scored on ATR_DENSIDADE, and a
profile scored on ATR_POPULACAO. -/
theorem pontuar_atributo_especificacao_witness :
    pontuar_atributo ficha_dens ATR_DENSIDADE = 1 / ficha_dens.densidade ∧
    pontuar_atributo ficha_zero ATR_DENSIDADE = 0 ∧
    pontuar_atributo ficha_exemplo ATR_POPULACAO
      = valor_atributo_base ficha_exemplo ATR_POPULACAO :=
  ⟨(pontuar_atributo_especificacao ficha_dens 5 (by norm_num) (by norm_num)).1
      rfl (by norm_num [ficha_dens]),
   (pontuar_atributo_especificacao ficha_zero 5 (by norm_num) (by norm_num)).2.1
      rfl rfl,
   (pontuar_atributo_especificacao ficha_exemplo 1 (by norm_num) (by norm_num)).2.2
      (by norm_num)⟩

/-- Claim C3: for every pair of profiles and pair of distinct attributes,
card 1 wins when its aggregate score strictly exceeds card 2 aggregate
score, card 2 wins in the reverse case, and equal scores give a tie. -/
theorem comparar_vencedor_especificacao (c1 c2 : FichaCidade) (atr1 atr2 : ℤ)
    (hne : atr1 ≠ atr2) :
    ((comparar c1 c2 atr1 atr2).c2_score < (comparar c1 c2 atr1 atr2).c1_score →
      (comparar c1 c2 atr1 atr2).vencedor = Vencedor.carta1) ∧
    ((comparar c1 c2 atr1 atr2).c1_score < (comparar c1 c2 atr1 atr2).c2_score →
      (comparar c1 c2 atr1 atr2).vencedor = Vencedor.carta2) ∧
    ((comparar c1 c2 atr1 atr2).c1_score = (comparar c1 c2 atr1 atr2).c2_score →
      (comparar c1 c2 atr1 atr2).vencedor = Vencedor.empate) := by
  refine ⟨fun h => ?_, fun h => ?_, fun h => ?_⟩ <;>
    simp only [comparar] at h ⊢
  · simp [h]
  · simp [h, lt_asymm h]
  · simp [h, lt_irrefl]

/-- Concrete instance of the C3 theorem: ficha_exemplo against ficha_zero on
attributes 1 and 2, where card 1 scores strictly higher and wins. -/
theorem comparar_vencedor_especificacao_witness :
    (comparar ficha_exemplo ficha_zero 1 2).vencedor = Vencedor.carta1 :=
  (comparar_vencedor_especificacao ficha_exemplo ficha_zero 1 2 (by norm_num)).1
    (by norm_num [comparar, pontuar_atributo, valor_atributo_base,
      ficha_exemplo, ficha_zero])

/-- Claim C4: for every profile pair and distinct attribute pair, each
aggregate score in the comparison result is exactly the sum of the two
per-attribute scores of that profile, with no normalization. -/
theorem comparar_pontuacao_agregada (c1 c2 : FichaCidade) (atr1 atr2 : ℤ)
    (hne : atr1 ≠ atr2) :
    (comparar c1 c2 atr1 atr2).c1_score
      = pontuar_atributo c1 atr1 + pontuar_atributo c1 atr2 ∧
    (comparar c1 c2 atr1 atr2).c2_score
      = pontuar_atributo c2 atr1 + pontuar_atributo c2 atr2 :=
  ⟨rfl, rfl⟩

/-- Concrete instance of the C4 theorem at ficha_exemplo, ficha_zero and the
attribute pair 1, 2. -/
theorem comparar_pontuacao_agregada_witness :
    (comparar ficha_exemplo ficha_zero 1 2).c1_score
      = pontuar_atributo ficha_exemplo 1 + pontuar_atributo ficha_exemplo 2 ∧
    (comparar ficha_exemplo ficha_zero 1 2).c2_score
      = pontuar_atributo ficha_zero 1 + pontuar_atributo ficha_zero 2 :=
  comparar_pontuacao_agregada ficha_exemplo ficha_zero 1 2 (by norm_num)

/-- Counterexample to claim C5: at the out-of-range identifier 7 the name
lookup returns the default string "Desconhecido" and the base-value accessor
returns the default 0; neither signals an UnknownAttribute error. -/
theorem atributo_desconhecido_contraexemplo :
    nome_atributo 7 = "Desconhecido" ∧ valor_atributo_base ficha_exemplo 7 = 0 := by
  constructor <;> norm_num [nome_atributo, valor_atributo_base]

/-- Claim C5 amended: for every identifier outside the six-member
enumeration, nome_atributo returns the default display name "Desconhecido"
and valor_atributo_base returns the default value 0; no error is signaled. -/
theorem atributo_desconhecido_padrao (f : FichaCidade) (atr : ℤ)
    (h : atr < 1 ∨ 6 < atr) :
    nome_atributo atr = "Desconhecido" ∧ valor_atributo_base f atr = 0 := by
  have h1 : atr ≠ 1 := by omega
  have h2 : atr ≠ 2 := by omega
  have h3 : atr ≠ 3 := by omega
  have h4 : atr ≠ 4 := by omega
  have h5 : atr ≠ 5 := by omega
  have h6 : atr ≠ 6 := by omega
  constructor <;>
    simp [nome_atributo, valor_atributo_base, ATR_POPULACAO, ATR_AREA, ATR_PIB,
      ATR_TURISMO, ATR_DENSIDADE, ATR_PIB_PC, h1, h2, h3, h4, h5, h6]

/-- Concrete instance of the amended C5 theorem at the identifier 7. -/
theorem atributo_desconhecido_padrao_witness :
    nome_atributo 7 = "Desconhecido" ∧ valor_atributo_base ficha_zero 7 = 0 :=
  atributo_desconhecido_padrao ficha_zero 7 (Or.inr (by norm_num))

/-- Counterexample to claim C6: choosing attribute 1 twice produces a full
comparison result, with the aggregate scores double-counting the attribute
and a definite winner; no DuplicateAttributeSelection failure occurs. -/
theorem comparar_atributo_duplicado_contraexemplo :
    comparar ficha_exemplo ficha_zero 1 1
      = ⟨1000000, 0, 1000000, 0, 2000000, 0, Vencedor.carta1⟩ := by
  norm_num [comparar, pontuar_atributo, valor_atributo_base,
    ficha_exemplo, ficha_zero]

/-- Claim C6 amended: the evaluation path performs no distinctness check and
never fails; with the same attribute chosen twice it returns a normal result
in which each aggregate score is twice that single attribute score.
Distinctness is enforced only upstream by the selection loop. -/
theorem comparar_atributo_duplicado_dobra (c1 c2 : FichaCidade) (atr : ℤ) :
    (comparar c1 c2 atr atr).c1_score = 2 * pontuar_atributo c1 atr ∧
    (comparar c1 c2 atr atr).c2_score = 2 * pontuar_atributo c2 atr := by
  refine ⟨?_, ?_⟩ <;> simp [comparar] <;> ring

/-- Claim C7: swapping the two profiles flips a win to the other card and
preserves a tie. -/
theorem comparar_simetria (c1 c2 : FichaCidade) (atr1 atr2 : ℤ)
    (hne : atr1 ≠ atr2) :
    (comparar c2 c1 atr1 atr2).vencedor
      = trocar_vencedor (comparar c1 c2 atr1 atr2).vencedor := by
  simp only [comparar]
  rcases lt_trichotomy (pontuar_atributo c1 atr1 + pontuar_atributo c1 atr2)
      (pontuar_atributo c2 atr1 + pontuar_atributo c2 atr2) with h | h | h
  · simp [h, lt_asymm h, trocar_vencedor]
  · simp [h, lt_irrefl, trocar_vencedor]
  · simp [h, lt_asymm h, trocar_vencedor]

/-- Concrete instance of the C7 theorem: swapping ficha_exemplo and
ficha_zero on attributes 1 and 2 flips the winner. -/
theorem comparar_simetria_witness :
    (comparar ficha_zero ficha_exemplo 1 2).vencedor
      = trocar_vencedor (comparar ficha_exemplo ficha_zero 1 2).vencedor :=
  comparar_simetria ficha_exemplo ficha_zero 1 2 (by norm_num)

/-- Claim C8: whenever the selection loop returns an identifier, that
identifier lies in the range 1..6 and differs from the previously chosen
identifier it was given. -/
theorem ler_atributo_distinto_valido (entradas : List ℤ) (diferente_de a : ℤ)
    (h : ler_atributo_distinto entradas diferente_de = some a) :
    1 ≤ a ∧ a ≤ 6 ∧ a ≠ diferente_de := by
  induction entradas with
  | nil => simp [ler_atributo_distinto] at h
  | cons b resto ih =>
      simp only [ler_atributo_distinto] at h
      split_ifs at h with hb hd
      · exact ih h
      · exact ih h
      · injection h with hba
        subst hba
        push_neg at hb
        exact ⟨hb.1, hb.2, hd⟩

/-- Concrete instance of the C8 theorem: with previous choice 2 and the
input sequence 0, 2, 5 the loop returns 5, which is in range and distinct. -/
theorem ler_atributo_distinto_valido_witness :
    1 ≤ (5 : ℤ) ∧ (5 : ℤ) ≤ 6 ∧ (5 : ℤ) ≠ 2 :=
  ler_atributo_distinto_valido [0, 2, 5] 2 5 (by decide)

/-- Counterexample to claim C9: with the parse attempts above, whose area
token parses to -5, ler_ficha hands the metric calculator a profile whose
area field is negative; the re-prompt loops check only parse success, never
sign. -/
theorem ler_ficha_area_negativa_contraexemplo :
    ler_ficha ficha_area_negativa.estado ficha_area_negativa.codigo
        ficha_area_negativa.cidade entradas_pop_c9 entradas_area_c9
        entradas_pib_c9 entradas_pontos_c9 = some ficha_area_negativa ∧
    ficha_area_negativa.area_km2 < 0 := by
  constructor
  · norm_num [ler_ficha, ler_ulong, ler_double, ler_int, calcular_metricas,
      ficha_area_negativa, entradas_pop_c9, entradas_area_c9,
      entradas_pib_c9, entradas_pontos_c9]
  · norm_num [ficha_area_negativa]

/-- Claim C9 amended: the numeric input loops re-prompt only on parse
failure and accept the first successfully parsed value whatever its sign, so
only the population field (unsigned in the source) is guaranteed
non-negative; area, economic output and points-of-interest may be negative. -/
theorem leitura_reprompt_apenas_em_falha :
    (∀ (n : ℕ) (v : ℚ) (resto : List (Option ℚ)),
        ler_double (List.replicate n none ++ some v :: resto) = some v) ∧
    (∀ (estado : Char) (codigo cidade : String) (pops : List (Option ℕ))
        (areas pibs : List (Option ℚ)) (pontos : List (Option ℤ))
        (f : FichaCidade),
        ler_ficha estado codigo cidade pops areas pibs pontos = some f →
        0 ≤ (f.populacao : ℤ)) := by
  constructor
  · intro n v resto
    induction n with
    | zero => simp [ler_double]
    | succ k ih => simpa [List.replicate_succ, ler_double] using ih
  · intro _ _ _ _ _ _ _ f _
    omega

/-- Concrete instance of the amended C9 theorem: two failed parses followed
by the token -5 yield the value -5, and the populacao field of the profile
built from the negative-area inputs is non-negative. -/
theorem leitura_reprompt_apenas_em_falha_witness :
    ler_double (List.replicate 2 none ++ some (-5) :: []) = some (-5) ∧
    0 ≤ (ficha_area_negativa.populacao : ℤ) :=
  ⟨leitura_reprompt_apenas_em_falha.1 2 (-5) [],
   leitura_reprompt_apenas_em_falha.2 ficha_area_negativa.estado
     ficha_area_negativa.codigo ficha_area_negativa.cidade entradas_pop_c9
     entradas_area_c9 entradas_pib_c9 entradas_pontos_c9 ficha_area_negativa
     (by norm_num [ler_ficha, ler_ulong, ler_double, ler_int,
        calcular_metricas, ficha_area_negativa, entradas_pop_c9,
        entradas_area_c9, entradas_pib_c9, entradas_pontos_c9])⟩

/-- Claim C10: calcular_metricas is idempotent; a second run leaves the
derived fields unchanged because both depend only on the raw fields, which
the first run does not modify. -/
theorem calcular_metricas_idempotente (f : FichaCidade) :
    calcular_metricas (calcular_metricas f) = calcular_metricas f := by
  simp [calcular_metricas]

end SuperTrunfo
